import Mathlib

/-!
A shallow embedding of the two scripts of the `architecture-kb` repository
(`scripts/pattern_analyzer.py` and `scripts/precommit_checker.py`) together
with theorems settling the specification claims about them.

Python strings are modelled as Lean `String` (diff bodies, which are only
ever sliced and measured, as `List Char`); Python dicts with a fixed key set
become structures; the JSON knowledge-base `repositories` mapping becomes an
association list with Python-dict semantics (update in place, insert at the
end); external effects (git, the LLM API, HTTP) are passed in as `Except` /
`Option` values describing the outcome the external collaborator produced.
-/

namespace ArchKB

/-! ## Basic string helpers

`strEndsWith s t` models Python `re.search(t_escaped + "$", s)` minus the
trailing-newline rule, i.e. plain suffix matching; `strContainsSub s t`
models `re.search(t_escaped, s)`, i.e. substring matching.  Python's `$`
(without `re.MULTILINE`) matches at the end of the string or just before a
newline that ends the string, so the faithful model of an `$`-anchored
literal pattern is `strEndsWithDollar`.
-/

def strEndsWith (s t : String) : Bool :=
  t.toList.isSuffixOf s.toList

def charsIsInfix (sub : List Char) : List Char → Bool
  | [] => sub.isEmpty
  | c :: cs => sub.isPrefixOf (c :: cs) || charsIsInfix sub cs

def strContainsSub (s t : String) : Bool :=
  charsIsInfix t.toList s.toList

def strEndsWithDollar (s t : String) : Bool :=
  strEndsWith s t || strEndsWith s (t ++ "\n")

/-- Python `str.strip()` yields the empty string iff every character is
whitespace; `isBlank` models the `not s.strip()` test. -/
def isBlank (s : String) : Bool :=
  s.toList.all Char.isWhitespace

/-- Python `str.lower()`, character by character. -/
def pyLower (s : String) : String :=
  String.mk (s.toList.map Char.toLower)

/-! ## Data model -/

structure ReusableComponent where
  name : String
  description : String
  files : List String
deriving Repr, DecidableEq

/-- One pattern record, as produced by `extract_patterns_with_llm`.  The six
JSON keys of the LLM contract are always present; `analyzed_at`,
`commit_sha` and `error` are optional keys of the underlying Python dict. -/
structure PatternRecord where
  patterns : List String
  decisions : List String
  reusable_components : List ReusableComponent
  dependencies : List String
  problem_domain : String
  keywords : List String
  analyzed_at : Option String := none
  commit_sha : Option String := none
  error : Option String := none
deriving Repr, DecidableEq

structure FileChange where
  path : String
  change_type : String
  diff : List Char
deriving Repr, DecidableEq

/-- The `changes` dict built by `get_recent_changes` on success. -/
structure Changes where
  commit_sha : String
  commit_message : String
  author : String
  timestamp : String
  files_changed : List FileChange
deriving Repr, DecidableEq

/-- What the git library hands back for the analysed commit (the raw diff
items, before noise filtering). -/
structure CommitInfo where
  message : String
  author : String
  timestamp : String
  diff_items : List FileChange
deriving Repr, DecidableEq

/-- Result of `get_recent_changes`: either the changes dict or the
`{'error': str(e)}` marker built in its `except` branch. -/
inductive ChangesResult where
  | ok (changes : Changes)
  | err (msg : String)
deriving Repr, DecidableEq

/-! ## Change Extractor (`_is_meaningful_file`, `get_recent_changes`) -/

/-- How one entry of `ignore_patterns` matches: the regexes in the source are
escaped literals, optionally anchored with `$`. -/
inductive MatchKind where
  | atEnd
  | anywhere
deriving Repr, DecidableEq

structure NoisePattern where
  kind : MatchKind
  text : String
deriving Repr, DecidableEq

/-- The `ignore_patterns` list of `_is_meaningful_file`, with each regex
translated to its literal text and anchoring. -/
def ignore_patterns : List NoisePattern :=
  [⟨MatchKind.atEnd, ".lock"⟩, ⟨MatchKind.atEnd, "package-lock.json"⟩,
   ⟨MatchKind.atEnd, "yarn.lock"⟩, ⟨MatchKind.atEnd, ".min.js"⟩,
   ⟨MatchKind.atEnd, ".map"⟩, ⟨MatchKind.anywhere, "__pycache__"⟩,
   ⟨MatchKind.atEnd, ".pyc"⟩, ⟨MatchKind.anywhere, ".git/"⟩,
   ⟨MatchKind.anywhere, "node_modules/"⟩, ⟨MatchKind.anywhere, ".DS_Store"⟩]

/-- `re.search(pattern, filepath)` for one `ignore_patterns` entry. -/
def matchesNoise (p : NoisePattern) (filepath : String) : Bool :=
  match p.kind with
  | MatchKind.atEnd => strEndsWithDollar filepath p.text
  | MatchKind.anywhere => strContainsSub filepath p.text

/-- `_is_meaningful_file`: true iff no ignore pattern matches. -/
def is_meaningful_file (filepath : String) : Bool :=
  !(ignore_patterns.any fun p => matchesNoise p filepath)

/-- `get_recent_changes`: on a git failure the `except` branch returns the
error marker; otherwise the changes dict is built, keeping exactly the diff
items whose path passes `_is_meaningful_file`. -/
def get_recent_changes (current_sha : String) (git : Except String CommitInfo) :
    ChangesResult :=
  match git with
  | Except.error e => ChangesResult.err e
  | Except.ok info =>
      ChangesResult.ok
        { commit_sha := current_sha
          commit_message := info.message
          author := info.author
          timestamp := info.timestamp
          files_changed := info.diff_items.filter fun it => is_meaningful_file it.path }

/-! ## Pattern Extractor (`extract_patterns_with_llm`) -/

/-- One element of the `files_summary` list sent to the LLM. -/
structure FileSummary where
  path : String
  change_type : String
  diff : List Char
deriving Repr, DecidableEq

/-- The summary embedded in the prompt: the first 10 changed files, each
diff truncated to its first 2000 characters. -/
def files_summary (changes : Changes) : List FileSummary :=
  (changes.files_changed.take 10).map fun f =>
    { path := f.path, change_type := f.change_type, diff := f.diff.take 2000 }

/-- `extract_patterns_with_llm`.  The LLM round trip (API call, code-fence
stripping, `json.loads`) is summarised by `llm_reply`: `Except.ok` carries
the parsed six-key object, `Except.error` the text of whatever exception was
raised.  On success the parsed dict is stamped with `analyzed_at` and
`commit_sha`; the `except` branch returns the fixed fallback dict, which
carries an `error` key but no stamps. -/
def extract_patterns_with_llm (changes : Changes) (now current_sha : String)
    (llm_reply : Except String PatternRecord) : PatternRecord :=
  let _summary := files_summary changes
  match llm_reply with
  | Except.ok pattern_data =>
      { pattern_data with analyzed_at := some now, commit_sha := some current_sha }
  | Except.error e =>
      { error := some e
        patterns := []
        decisions := []
        reusable_components := []
        dependencies := []
        problem_domain := "unknown"
        keywords := [] }

/-! ## Knowledge Base Store (`load_knowledge_base` / `update_knowledge_base`)

The JSON document's `repositories` mapping is an association list with
Python-dict semantics: `findRepo` returns the value of the first matching
key, `setRepo` overwrites the first matching key in place or, when the key
is absent, inserts it at the end.
-/

structure HistoryEntry where
  timestamp : String
  commit_sha : String
  patterns : PatternRecord
deriving Repr, DecidableEq

structure RepoEntry where
  patterns : PatternRecord
  history : List HistoryEntry
deriving Repr, DecidableEq

structure KnowledgeBase where
  repositories : List (String × RepoEntry)
  last_updated : Option String := none
deriving Repr, DecidableEq

def findRepo (rs : List (String × RepoEntry)) (name : String) : Option RepoEntry :=
  match rs with
  | [] => none
  | (n, v) :: rest => if n = name then some v else findRepo rest name

def setRepo (rs : List (String × RepoEntry)) (name : String) (e : RepoEntry) :
    List (String × RepoEntry) :=
  match rs with
  | [] => [(name, e)]
  | (n, v) :: rest =>
      if n = name then (n, e) :: rest else (n, v) :: setRepo rest name e

/-- Stand-in for the `'patterns': []` placeholder of a freshly initialised
repository entry; it is overwritten before the document is ever written or
read back, so its value is irrelevant. -/
def emptyPatterns : PatternRecord :=
  { patterns := []
    decisions := []
    reusable_components := []
    dependencies := []
    problem_domain := ""
    keywords := [] }

/-- The in-memory document transformation of `update_knowledge_base` (the
surrounding GitHub load and write-back are external I/O): initialise the
current repository's entry when absent, append `{timestamp, commit_sha,
patterns}` to its history, overwrite its latest `patterns`, and refresh the
document-level `last_updated`.  The two separate `datetime.now()` calls are
the parameters `entry_time` and `doc_time`. -/
def update_knowledge_base (kb : KnowledgeBase) (current_repo : String)
    (entry_time doc_time current_sha : String) (pattern_data : PatternRecord) :
    KnowledgeBase :=
  let base : RepoEntry :=
    match findRepo kb.repositories current_repo with
    | some e => e
    | none => { patterns := emptyPatterns, history := [] }
  let entry : HistoryEntry :=
    { timestamp := entry_time, commit_sha := current_sha, patterns := pattern_data }
  let updated : RepoEntry :=
    { patterns := pattern_data, history := base.history ++ [entry] }
  { repositories := setRepo kb.repositories current_repo updated
    last_updated := some doc_time }

/-! ## Similarity Matcher (`find_similar_patterns`) -/

structure SimilarityResult where
  repository : String
  keyword_overlap : Nat
  pattern_overlap : Nat
  matching_patterns : List String
  matching_keywords : List String
  repo_patterns : PatternRecord
deriving Repr, DecidableEq

/-- The sort key `x['keyword_overlap'] + x['pattern_overlap']`. -/
def simScore (s : SimilarityResult) : Nat :=
  s.keyword_overlap + s.pattern_overlap

/-- The loop body of `find_similar_patterns` for one `repositories` item:
skip the current repository, compute the two set-intersection overlap
counts, and keep the entry only when one of them is positive. -/
def simEntryFor (current_repo : String) (current : PatternRecord)
    (p : String × RepoEntry) : Option SimilarityResult :=
  if p.1 = current_repo then none
  else
    let repo_patterns := p.2.patterns
    let keyword_overlap :=
      (current.keywords.toFinset ∩ repo_patterns.keywords.toFinset).card
    let pattern_overlap :=
      (current.patterns.toFinset ∩ repo_patterns.patterns.toFinset).card
    if 0 < keyword_overlap ∨ 0 < pattern_overlap then
      some { repository := p.1
             keyword_overlap := keyword_overlap
             pattern_overlap := pattern_overlap
             matching_patterns :=
               current.patterns.dedup.filter fun x => x ∈ repo_patterns.patterns
             matching_keywords :=
               current.keywords.dedup.filter fun x => x ∈ repo_patterns.keywords
             repo_patterns := repo_patterns }
    else none

/-- Descending order on the combined overlap score (`reverse=True`). -/
def simGE (a b : SimilarityResult) : Prop :=
  simScore b ≤ simScore a

instance : DecidableRel simGE := fun a b => Nat.decLe (simScore b) (simScore a)

instance : IsTotal SimilarityResult simGE :=
  ⟨fun a b => (Nat.le_total (simScore a) (simScore b)).symm⟩

instance : IsTrans SimilarityResult simGE :=
  ⟨fun _ _ _ h1 h2 => Nat.le_trans h2 h1⟩

/-- `find_similar_patterns`: score every other repository, keep the entries
with positive overlap, sort descending by combined overlap (Python's
`list.sort` is a stable sort, modelled by insertion sort), return the top
five. -/
def find_similar_patterns (current_repo : String) (current : PatternRecord)
    (kb : KnowledgeBase) : List SimilarityResult :=
  let similarities := kb.repositories.filterMap (simEntryFor current_repo current)
  (similarities.insertionSort simGE).take 5

/-! ## Analyzer orchestration (`run`) -/

/-- Outcome of one analyzer run, as far as the knowledge-base document is
concerned: the document state and whether an update write was issued. -/
structure RunOutcome where
  kb_after : KnowledgeBase
  kb_written : Bool
deriving Repr, DecidableEq

/-- The knowledge-base-relevant control flow of `PatternAnalyzer.run`: abort
with no write when `get_recent_changes` returned the error marker or when no
meaningful file changed; otherwise extract patterns and, when a knowledge
base repository is configured, write the updated document.  The similarity
query and notification that follow never touch the document. -/
def run (kb_repo_configured : Bool) (current_repo current_sha : String)
    (git : Except String CommitInfo) (llm_reply : Except String PatternRecord)
    (kb : KnowledgeBase) (analysis_time entry_time doc_time : String) : RunOutcome :=
  match get_recent_changes current_sha git with
  | ChangesResult.err _ => { kb_after := kb, kb_written := false }
  | ChangesResult.ok changes =>
      if changes.files_changed.isEmpty then { kb_after := kb, kb_written := false }
      else
        let patterns :=
          extract_patterns_with_llm changes analysis_time current_sha llm_reply
        if kb_repo_configured then
          { kb_after :=
              update_knowledge_base kb current_repo entry_time doc_time current_sha
                patterns
            kb_written := true }
        else { kb_after := kb, kb_written := false }

/-! ## Pre-commit checker (`precommit_checker.py`)

External collaborators are again passed in as values: `staged_diff` is what
`git diff --cached` printed (its failure branch returns `""`), `fetched` is
the outcome of the knowledge-base HTTP GET (`none` models both a missing
`KNOWLEDGE_BASE_URL` response and any request failure), `llm_reply` is the
outcome of the quick-check LLM round trip, and `answer` is what `input()`
read at the confirmation prompt.
-/

structure CheckWarning where
  message : String
  similar_repo : String
  suggestion : String
deriving Repr, DecidableEq

/-- A repository value of the fetched knowledge-base JSON as the checker
reads it: `patterns` is `none` when the `patterns` key is absent or its
object is empty (falsy in `if patterns:`). -/
structure FetchedRepoEntry where
  patterns : Option PatternRecord
deriving Repr, DecidableEq

structure FetchedKB where
  repositories : List (String × FetchedRepoEntry)
deriving Repr, DecidableEq

/-- The `other_repos_summary` list built by `quick_pattern_check`: one line
per other repository whose `patterns` object is truthy. -/
def other_repos_summary (current_repo : String) (kb : FetchedKB) : List String :=
  kb.repositories.filterMap fun p =>
    if p.1 = current_repo then none
    else
      match p.2.patterns with
      | none => none
      | some pr =>
          some (p.1 ++ ": " ++ String.intercalate ", " (pr.patterns.take 3))

/-- `quick_pattern_check`: returns the warning list together with the number
of LLM API calls it performed.  An empty staged diff or an empty summary of
other repositories short-circuits to no warnings and no call; an LLM or
parse failure is caught and yields no warnings. -/
def quick_pattern_check (diff_content : String) (current_repo : String)
    (kb : FetchedKB) (llm_reply : Except String (List CheckWarning)) :
    List CheckWarning × Nat :=
  if isBlank diff_content then ([], 0)
  else
    let summary := other_repos_summary current_repo kb
    if summary.isEmpty then ([], 0)
    else
      match llm_reply with
      | Except.ok ws => (ws, 1)
      | Except.error _ => ([], 1)

/-- Result of one checker invocation: process exit code, number of network
round trips performed (knowledge-base GET plus LLM calls), and the warnings
that were printed before the confirmation prompt. -/
structure CheckOutcome where
  exit_code : Nat
  network_calls : Nat
  warnings_shown : List CheckWarning
deriving Repr, DecidableEq

/-- `PreCommitChecker.run` (reached only when an API key is present): skip
with exit 0 on an empty staged diff, a missing/empty knowledge base, or no
warnings; otherwise prompt, and exit 1 exactly when the lowercased answer is
not `"y"`. -/
def precommit_run (current_repo : String) (staged_diff : String)
    (kb_url_set : Bool) (fetched : Option FetchedKB)
    (llm_reply : Except String (List CheckWarning)) (answer : String) :
    CheckOutcome :=
  if isBlank staged_diff then { exit_code := 0, network_calls := 0, warnings_shown := [] }
  else
    let fetch_calls := if kb_url_set then 1 else 0
    match (if kb_url_set then fetched else none) with
    | none => { exit_code := 0, network_calls := fetch_calls, warnings_shown := [] }
    | some kb =>
        if kb.repositories.isEmpty then
          { exit_code := 0, network_calls := fetch_calls, warnings_shown := [] }
        else
          let checked := quick_pattern_check staged_diff current_repo kb llm_reply
          if checked.1.isEmpty then
            { exit_code := 0, network_calls := fetch_calls + checked.2
              warnings_shown := [] }
          else
            if pyLower answer = "y" then
              { exit_code := 0, network_calls := fetch_calls + checked.2
                warnings_shown := checked.1 }
            else
              { exit_code := 1, network_calls := fetch_calls + checked.2
                warnings_shown := checked.1 }

/-- The whole checker process: with no `ANTHROPIC_API_KEY`, `__init__` calls
`sys.exit(0)` before any other work, so nothing is fetched and no LLM call
is made. -/
def precommit_main (api_key : Option String) (current_repo : String)
    (staged_diff : String) (kb_url_set : Bool) (fetched : Option FetchedKB)
    (llm_reply : Except String (List CheckWarning)) (answer : String) :
    CheckOutcome :=
  match api_key with
  | none => { exit_code := 0, network_calls := 0, warnings_shown := [] }
  | some _ => precommit_run current_repo staged_diff kb_url_set fetched llm_reply answer

/-! ## Concrete sample values (used by witnesses and counterexamples) -/

def recA : PatternRecord :=
  { patterns := ["retry logic"]
    decisions := ["use requests"]
    reusable_components := []
    dependencies := ["requests"]
    problem_domain := "http clients"
    keywords := ["http", "retry"] }

def recB : PatternRecord :=
  { patterns := ["retry logic"]
    decisions := []
    reusable_components := []
    dependencies := []
    problem_domain := "caching"
    keywords := ["http", "cache"] }

def entryOf (r : PatternRecord) : RepoEntry :=
  { patterns := r, history := [{ timestamp := "t0", commit_sha := "s0", patterns := r }] }

def recWithKeyword (k : String) : PatternRecord :=
  { patterns := []
    decisions := []
    reusable_components := []
    dependencies := []
    problem_domain := "d"
    keywords := [k] }

/-- A knowledge base with six other repositories, all sharing the keyword
`"http"` with `recB`. -/
def kbSix : KnowledgeBase :=
  { repositories :=
      [("org/r1", entryOf (recWithKeyword "http")),
       ("org/r2", entryOf (recWithKeyword "http")),
       ("org/r3", entryOf (recWithKeyword "http")),
       ("org/r4", entryOf (recWithKeyword "http")),
       ("org/r5", entryOf (recWithKeyword "http")),
       ("org/r6", entryOf (recWithKeyword "http"))]
    last_updated := some "t0" }

def kbOne : KnowledgeBase :=
  { repositories := [("org/a", entryOf recA)], last_updated := some "t0" }

def kbEmpty : KnowledgeBase :=
  { repositories := [], last_updated := none }

def changesSample : Changes :=
  { commit_sha := "abc1234"
    commit_message := "add retry"
    author := "dev"
    timestamp := "2024-01-01T00:00:00"
    files_changed := [{ path := "client.py", change_type := "M", diff := "x".toList }] }

/-- The similarity entry for `"org/r1"` when analysing `recB` against
`kbSix`. -/
def simR1 : SimilarityResult :=
  { repository := "org/r1"
    keyword_overlap := 1
    pattern_overlap := 0
    matching_patterns := []
    matching_keywords := ["http"]
    repo_patterns := recWithKeyword "http" }

/-! ## Spec-side noise predicates (for claim C5)

`matches_noise_plain` is the claim's literal reading of the noise filter:
plain case-sensitive suffix/substring matching.  `matches_noise_spec` is the
amended reading: the same matching, except that a suffix pattern also
matches just before a single newline that ends the path, which is what
Python's `$` anchor does.
-/

def matchesNoisePlain (p : NoisePattern) (filepath : String) : Bool :=
  match p.kind with
  | MatchKind.atEnd => strEndsWith filepath p.text
  | MatchKind.anywhere => strContainsSub filepath p.text

def matches_noise_plain (filepath : String) : Bool :=
  ignore_patterns.any fun p => matchesNoisePlain p filepath

def matches_noise_spec (filepath : String) : Bool :=
  strEndsWithDollar filepath ".lock" ||
  strEndsWithDollar filepath "package-lock.json" ||
  strEndsWithDollar filepath "yarn.lock" ||
  strEndsWithDollar filepath ".min.js" ||
  strEndsWithDollar filepath ".map" ||
  strContainsSub filepath "__pycache__" ||
  strEndsWithDollar filepath ".pyc" ||
  strContainsSub filepath ".git/" ||
  strContainsSub filepath "node_modules/" ||
  strContainsSub filepath ".DS_Store"

/-! ## Helper lemmas about the repositories association list -/

theorem findRepo_setRepo_self (rs : List (String × RepoEntry)) (name : String)
    (e : RepoEntry) : findRepo (setRepo rs name e) name = some e := by
  induction rs with
  | nil => simp [setRepo, findRepo]
  | cons p rest ih =>
      obtain ⟨n, v⟩ := p
      by_cases h : n = name
      · simp [setRepo, findRepo, h]
      · simp [setRepo, findRepo, h, ih]

theorem findRepo_setRepo_other (rs : List (String × RepoEntry)) (name other : String)
    (e : RepoEntry) (h : other ≠ name) :
    findRepo (setRepo rs name e) other = findRepo rs other := by
  induction rs with
  | nil => simp [setRepo, findRepo, Ne.symm h]
  | cons p rest ih =>
      obtain ⟨n, v⟩ := p
      by_cases hn : n = name
      · subst hn
        simp [setRepo, findRepo, Ne.symm h]
      · simp only [setRepo, if_neg hn, findRepo]
        by_cases ho : n = other
        · simp [ho]
        · simp [ho, ih]

theorem keys_setRepo (rs : List (String × RepoEntry)) (name : String) (e : RepoEntry) :
    (setRepo rs name e).map Prod.fst =
      if (findRepo rs name).isSome then rs.map Prod.fst
      else rs.map Prod.fst ++ [name] := by
  induction rs with
  | nil => simp [setRepo, findRepo]
  | cons p rest ih =>
      obtain ⟨n, v⟩ := p
      by_cases h : n = name
      · simp [setRepo, findRepo, h]
      · simp only [setRepo, if_neg h, findRepo, List.map_cons, ih]
        by_cases hs : (findRepo rest name).isSome
        · simp [hs]
        · simp [hs]

theorem findRepo_isSome_iff (rs : List (String × RepoEntry)) (name : String) :
    (findRepo rs name).isSome ↔ name ∈ rs.map Prod.fst := by
  induction rs with
  | nil => simp [findRepo]
  | cons p rest ih =>
      obtain ⟨n, v⟩ := p
      by_cases h : n = name
      · simp [findRepo, h]
      · simp [findRepo, h, ih, Ne.symm h]

theorem mem_keys_setRepo (rs : List (String × RepoEntry)) (name other : String)
    (e : RepoEntry) (h : other ∈ rs.map Prod.fst) :
    other ∈ (setRepo rs name e).map Prod.fst := by
  rw [keys_setRepo]
  by_cases hs : (findRepo rs name).isSome
  · rwa [if_pos hs]
  · rw [if_neg hs]
    exact List.mem_append_left _ h

/-! ## Claim theorems -/

/-- Claim C4: for every LLM reply that fails to produce parseable JSON (and
for every API or network failure, all summarised by `Except.error`),
`extract_patterns_with_llm` returns — rather than raising — a record whose
five list fields are empty, whose `problem_domain` is `"unknown"`, and which
carries the error text in its `error` field. -/
theorem c4_llm_failure_fallback (changes : Changes) (now sha e : String) :
    (extract_patterns_with_llm changes now sha (Except.error e)).patterns = [] ∧
    (extract_patterns_with_llm changes now sha (Except.error e)).decisions = [] ∧
    (extract_patterns_with_llm changes now sha (Except.error e)).reusable_components
      = [] ∧
    (extract_patterns_with_llm changes now sha (Except.error e)).dependencies = [] ∧
    (extract_patterns_with_llm changes now sha (Except.error e)).keywords = [] ∧
    (extract_patterns_with_llm changes now sha (Except.error e)).problem_domain
      = "unknown" ∧
    (extract_patterns_with_llm changes now sha (Except.error e)).error = some e :=
  ⟨rfl, rfl, rfl, rfl, rfl, rfl, rfl⟩

/-- Claim C6: on a source-control failure `get_recent_changes` returns the
explicit error marker instead of raising, and `run`, seeing that marker,
terminates before any knowledge-base write: the document is unchanged. -/
theorem c6_git_failure_aborts_run (cfg : Bool) (repo sha e : String)
    (llm_reply : Except String PatternRecord) (kb : KnowledgeBase)
    (t1 t2 t3 : String) :
    get_recent_changes sha (Except.error e) = ChangesResult.err e ∧
    run cfg repo sha (Except.error e) llm_reply kb t1 t2 t3 =
      { kb_after := kb, kb_written := false } :=
  ⟨rfl, rfl⟩

/-- Claim C8 counterexample: a record produced on the failure path of
`extract_patterns_with_llm` carries neither the analysis timestamp nor the
commit identifier, so not every produced record is stamped with them. -/
theorem c8_failure_record_unstamped_cex :
    (extract_patterns_with_llm changesSample "2024-01-02T00:00:00" "abc1234"
        (Except.error "API error")).analyzed_at = none ∧
    (extract_patterns_with_llm changesSample "2024-01-02T00:00:00" "abc1234"
        (Except.error "API error")).commit_sha = none :=
  ⟨rfl, rfl⟩

/-- Claim C8 (amended): every record produced by `extract_patterns_with_llm`
from a successfully parsed reply is stamped with the analysis timestamp and
the triggering commit identifier; a record produced on failure carries the
error field but no stamps. -/
theorem c8_stamping_amended (changes : Changes) (now sha : String)
    (pd : PatternRecord) (e : String) :
    (extract_patterns_with_llm changes now sha (Except.ok pd)).analyzed_at
      = some now ∧
    (extract_patterns_with_llm changes now sha (Except.ok pd)).commit_sha
      = some sha ∧
    (extract_patterns_with_llm changes now sha (Except.error e)).analyzed_at
      = none ∧
    (extract_patterns_with_llm changes now sha (Except.error e)).commit_sha
      = none ∧
    (extract_patterns_with_llm changes now sha (Except.error e)).error = some e :=
  ⟨rfl, rfl, rfl, rfl, rfl⟩

/-- Claim C9: the summary embedded in the LLM prompt contains at most 10
changed files, and each included file's diff text is at most 2000 characters
long. -/
theorem c9_files_summary_bounds (changes : Changes) :
    (files_summary changes).length ≤ 10 ∧
    ∀ fs ∈ files_summary changes, fs.diff.length ≤ 2000 := by
  constructor
  · have h : (files_summary changes).length =
        min 10 changes.files_changed.length := by
      simp [files_summary]
    omega
  · intro fs hfs
    rw [files_summary, List.mem_map] at hfs
    obtain ⟨f, _, rfl⟩ := hfs
    have h := List.length_take 2000 f.diff
    simp only [h]
    omega

/-- Claim C9 witness: the bounds evaluated on a concrete change set. -/
theorem c9_files_summary_bounds_witness :
    (files_summary changesSample).length ≤ 10 ∧
    (FileSummary.mk "client.py" "M" "x".toList).diff.length ≤ 2000 := by
  refine ⟨(c9_files_summary_bounds changesSample).1, ?_⟩
  exact (c9_files_summary_bounds changesSample).2 _ (by decide)

/-- Claim C10: `update_knowledge_base` changes the document only at the
current repository's entry and the document-level `last_updated` field:
every other repository's entry is unchanged, and the current repository's
history equals its previous history (empty when the entry is new) with
exactly the one new entry appended at the end. -/
theorem c10_update_frame (kb : KnowledgeBase) (repo te td sha : String)
    (pd : PatternRecord) :
    (∀ name, name ≠ repo →
        findRepo (update_knowledge_base kb repo te td sha pd).repositories name =
          findRepo kb.repositories name) ∧
    (∃ e, findRepo (update_knowledge_base kb repo te td sha pd).repositories repo
          = some e ∧
        e.history = ((findRepo kb.repositories repo).elim [] RepoEntry.history) ++
          [{ timestamp := te, commit_sha := sha, patterns := pd }] ∧
        e.patterns = pd) ∧
    (update_knowledge_base kb repo te td sha pd).last_updated = some td := by
  refine ⟨?_, ?_, rfl⟩
  · intro name hn
    exact findRepo_setRepo_other _ _ _ _ hn
  · refine ⟨_, findRepo_setRepo_self _ _ _, ?_, rfl⟩
    cases h : findRepo kb.repositories repo <;> simp [update_knowledge_base, h]

/-- Claim C10 witness: the frame condition evaluated on a concrete update
(`kbOne` holds only `"org/a"`; updating `"org/b"` leaves it alone). -/
theorem c10_update_frame_witness :
    findRepo (update_knowledge_base kbOne "org/b" "t1" "t2" "sha2" recB).repositories
        "org/a" = findRepo kbOne.repositories "org/a" :=
  (c10_update_frame kbOne "org/b" "t1" "t2" "sha2" recB).1 "org/a" (by decide)

/-- Claim C2 counterexample: for a knowledge base in which the repository
already has one history entry (`kbOne` holds `"org/a"` with a one-entry
history), two further updates yield a history with three entries, not two —
so "for every loaded knowledge base ... the history has two entries" fails. -/
theorem c2_update_twice_cex :
    ∃ e, findRepo (update_knowledge_base
          (update_knowledge_base kbOne "org/a" "t1" "d1" "s" recA) "org/a" "t2" "d2"
          "s" recA).repositories "org/a" = some e ∧
      e.history.length = 3 ∧ e.history.length ≠ 2 := by
  refine ⟨_, findRepo_setRepo_self _ _ _, by decide, by decide⟩

/-- Claim C2 (amended): calling `update_knowledge_base` twice with the same
record for the same repository appends exactly two history entries — so a
repository not previously in the document ends with exactly two — while the
latest `patterns` value is unchanged from the first call; and every update
preserves every repository name already present in the document. -/
theorem c2_update_twice_amended (kb : KnowledgeBase) (repo t1 d1 t2 d2 sha : String)
    (pd : PatternRecord) :
    (∃ e2, findRepo (update_knowledge_base
          (update_knowledge_base kb repo t1 d1 sha pd) repo t2 d2 sha pd).repositories
            repo = some e2 ∧
        e2.history.length =
          ((findRepo kb.repositories repo).elim [] RepoEntry.history).length + 2 ∧
        ∃ e1, findRepo (update_knowledge_base kb repo t1 d1 sha pd).repositories repo
            = some e1 ∧ e2.patterns = e1.patterns) ∧
    (∀ (kb' : KnowledgeBase) (r te td s : String) (pd' : PatternRecord)
        (name : String), name ∈ kb'.repositories.map Prod.fst →
        name ∈ (update_knowledge_base kb' r te td s pd').repositories.map Prod.fst) := by
  constructor
  · refine ⟨_, findRepo_setRepo_self _ _ _, ?_, _, findRepo_setRepo_self _ _ _, rfl⟩
    cases h : findRepo kb.repositories repo <;>
      simp [update_knowledge_base, findRepo_setRepo_self, h]
  · intro kb' r te td s pd' name hname
    exact mem_keys_setRepo _ _ _ _ hname

/-- Claim C2 witness: the double update evaluated on the empty document
gives a two-entry history. -/
theorem c2_update_twice_amended_witness :
    ∃ e2, findRepo (update_knowledge_base
          (update_knowledge_base kbEmpty "org/b" "t1" "d1" "s" recB) "org/b" "t2" "d2"
          "s" recB).repositories "org/b" = some e2 ∧ e2.history.length = 2 := by
  obtain ⟨⟨e2, he2, hlen, _⟩, _⟩ :=
    c2_update_twice_amended kbEmpty "org/b" "t1" "d1" "t2" "d2" "s" recB
  exact ⟨e2, he2, by simpa [kbEmpty, findRepo] using hlen⟩

/-- Claim C3: after an update on a well-formed document, the updated entry's
`patterns` field equals the record stored in the last entry of its history,
and the repository-name keys stay unique. -/
theorem c3_update_invariant (kb : KnowledgeBase) (repo te td sha : String)
    (pd : PatternRecord) (h : (kb.repositories.map Prod.fst).Nodup) :
    (∃ e, findRepo (update_knowledge_base kb repo te td sha pd).repositories repo
        = some e ∧
      ∃ last, e.history.getLast? = some last ∧ e.patterns = last.patterns) ∧
    ((update_knowledge_base kb repo te td sha pd).repositories.map Prod.fst).Nodup := by
  constructor
  · refine ⟨_, findRepo_setRepo_self _ _ _,
      { timestamp := te, commit_sha := sha, patterns := pd }, ?_, rfl⟩
    exact List.getLast?_concat _
  · show ((setRepo kb.repositories repo _).map Prod.fst).Nodup
    rw [keys_setRepo]
    by_cases hs : (findRepo kb.repositories repo).isSome
    · rwa [if_pos hs]
    · rw [if_neg hs]
      rw [List.nodup_append]
      refine ⟨h, List.nodup_singleton _, ?_⟩
      intro a ha hb
      rw [List.mem_singleton] at hb
      subst hb
      exact hs ((findRepo_isSome_iff _ _).2 ha)

/-- Claim C3 witness: the invariant evaluated on a concrete well-formed
document. -/
theorem c3_update_invariant_witness :
    (kbOne.repositories.map Prod.fst).Nodup ∧
    ((update_knowledge_base kbOne "org/b" "t1" "t2" "s" recB).repositories.map
        Prod.fst).Nodup :=
  ⟨by decide, (c3_update_invariant kbOne "org/b" "t1" "t2" "s" recB (by decide)).2⟩

/-- Claim C5 counterexample: the path `"x.lock\n"` matches none of the noise
patterns under plain case-sensitive suffix/substring matching, yet the
filter excludes it, because Python's `$` anchor in `\.lock$` also matches
just before a newline that ends the string.  So "excluded iff a noise
pattern suffix/substring-matches" fails at this path. -/
theorem c5_noise_suffix_cex :
    is_meaningful_file "x.lock\n" = false ∧
    matches_noise_plain "x.lock\n" = false := by
  decide

/-- Claim C5 (amended): a path is excluded if and only if one of the noise
patterns matches it, with case-sensitive substring matching for the
unanchored patterns and, for the `$`-anchored ones, suffix matching that
also accepts a single trailing newline after the suffix. -/
theorem c5_noise_filter_amended (filepath : String) :
    is_meaningful_file filepath = !(matches_noise_spec filepath) := by
  simp only [is_meaningful_file, ignore_patterns, matches_noise_spec,
    List.any_cons, List.any_nil, matchesNoise, Bool.or_false, Bool.or_assoc]

/-- Claim C1: `find_similar_patterns` returns only entries for repositories
other than the current one with positive keyword or pattern overlap; the
overlap fields equal the sizes of the case-sensitive set intersections of
the corresponding lists; the result is sorted descending by combined
overlap; and it has at most 5 entries. -/
theorem c1_find_similar_patterns_spec (current_repo : String)
    (current : PatternRecord) (kb : KnowledgeBase) :
    (∀ s ∈ find_similar_patterns current_repo current kb,
        s.repository ≠ current_repo ∧
        (0 < s.keyword_overlap ∨ 0 < s.pattern_overlap) ∧
        ∃ p ∈ kb.repositories, p.1 = s.repository ∧
          s.keyword_overlap =
            (current.keywords.toFinset ∩ p.2.patterns.keywords.toFinset).card ∧
          s.pattern_overlap =
            (current.patterns.toFinset ∩ p.2.patterns.patterns.toFinset).card) ∧
    (find_similar_patterns current_repo current kb).Sorted simGE ∧
    (find_similar_patterns current_repo current kb).length ≤ 5 := by
  refine ⟨?_, ?_, ?_⟩
  · intro s hs
    have hs1 : s ∈ (kb.repositories.filterMap
        (simEntryFor current_repo current)).insertionSort simGE :=
      (List.take_sublist _ _).subset hs
    have hs2 : s ∈ kb.repositories.filterMap (simEntryFor current_repo current) :=
      (List.perm_insertionSort simGE _).mem_iff.1 hs1
    rw [List.mem_filterMap] at hs2
    obtain ⟨p, hp, hsome⟩ := hs2
    simp only [simEntryFor] at hsome
    by_cases hskip : p.1 = current_repo
    · rw [if_pos hskip] at hsome
      exact absurd hsome (by simp)
    · rw [if_neg hskip] at hsome
      by_cases hpos : 0 < (current.keywords.toFinset ∩
            p.2.patterns.keywords.toFinset).card ∨
          0 < (current.patterns.toFinset ∩ p.2.patterns.patterns.toFinset).card
      · rw [if_pos hpos] at hsome
        rw [Option.some.injEq] at hsome
        subst hsome
        exact ⟨hskip, hpos, p, hp, rfl, rfl, rfl⟩
      · rw [if_neg hpos] at hsome
        exact absurd hsome (by simp)
  · exact List.Pairwise.sublist (List.take_sublist _ _)
      (List.sorted_insertionSort simGE _)
  · show (((kb.repositories.filterMap
        (simEntryFor current_repo current)).insertionSort simGE).take 5).length ≤ 5
    rw [List.length_take]
    exact inf_le_left

/-- Claim C1 witness: the similarity query evaluated against a knowledge
base of six overlapping repositories. -/
theorem c1_find_similar_patterns_spec_witness :
    simR1.repository ≠ "org/b" ∧
    (find_similar_patterns "org/b" recB kbSix).length ≤ 5 :=
  ⟨((c1_find_similar_patterns_spec "org/b" recB kbSix).1 simR1 (by decide)).1,
   (c1_find_similar_patterns_spec "org/b" recB kbSix).2.2⟩

/-- Claim C7: the checker exits 0 in every non-fatal skip condition — with no
API key it also performs no network calls — and, given an API key, it always
exits 0 or 1, exiting 1 exactly when warnings were shown and the lowercased
interactive answer is not the affirmative `"y"`. -/
theorem c7_precommit_exit_codes (key current_repo staged_diff : String)
    (kb_url_set : Bool) (fetched : Option FetchedKB)
    (llm_reply : Except String (List CheckWarning)) (answer : String) :
    precommit_main none current_repo staged_diff kb_url_set fetched llm_reply answer
      = { exit_code := 0, network_calls := 0, warnings_shown := [] } ∧
    ((precommit_main (some key) current_repo staged_diff kb_url_set fetched llm_reply
        answer).exit_code = 0 ∨
     (precommit_main (some key) current_repo staged_diff kb_url_set fetched llm_reply
        answer).exit_code = 1) ∧
    ((precommit_main (some key) current_repo staged_diff kb_url_set fetched llm_reply
        answer).exit_code = 1 ↔
      (precommit_main (some key) current_repo staged_diff kb_url_set fetched llm_reply
        answer).warnings_shown ≠ [] ∧ pyLower answer ≠ "y") := by
  refine ⟨rfl, ?_⟩
  show _ ∧ _
  simp only [precommit_main, precommit_run]
  by_cases hblank : isBlank staged_diff
  · simp [hblank]
  · simp only [hblank, Bool.false_eq_true, if_false]
    cases hk : (if kb_url_set then fetched else none) with
    | none => simp
    | some kbv =>
        by_cases hemp : kbv.repositories.isEmpty
        · simp [hemp]
        · simp only [hemp, Bool.false_eq_true, if_false]
          by_cases hw : (quick_pattern_check staged_diff current_repo kbv llm_reply).1
              |>.isEmpty
          · simp [hw]
          · simp only [hw, Bool.false_eq_true, if_false]
            by_cases hy : pyLower answer = "y"
            · simp [hy]
            · have hw' :
                  (quick_pattern_check staged_diff current_repo kbv llm_reply).1
                    ≠ [] := by
                simpa [List.isEmpty_iff] using hw
              simp [hy, hw']

/-- Claim C7 witness: a run with warnings and a non-affirmative answer exits
with status 1, and a keyless run performs no network calls. -/
theorem c7_precommit_exit_codes_witness :
    precommit_main none "org/b" "diff" true (some ⟨[("org/a", ⟨some recA⟩)]⟩)
        (Except.ok [⟨"m", "org/a", "s"⟩]) "n"
      = { exit_code := 0, network_calls := 0, warnings_shown := [] } ∧
    (precommit_main (some "k") "org/b" "diff" true (some ⟨[("org/a", ⟨some recA⟩)]⟩)
        (Except.ok [⟨"m", "org/a", "s"⟩]) "n").exit_code = 1 := by
  refine ⟨(c7_precommit_exit_codes "k" "org/b" "diff" true _ _ "n").1, ?_⟩
  exact (c7_precommit_exit_codes "k" "org/b" "diff" true
      (some ⟨[("org/a", ⟨some recA⟩)]⟩) (Except.ok [⟨"m", "org/a", "s"⟩]) "n").2.2.2
    ⟨by decide, by decide⟩

end ArchKB
